import Mathlib

/-!
Verification of the repex replica-exchange engine specification against a
shallow embedding of the repository's Python sources
(`repex/parallel_tempering.py`, `repex/hamiltonian_exchange.py`,
`repex/netcdf_io.py`, `repex/hdf_io.py`).

Floating-point scalars are embedded as rationals `ℚ` (exact arithmetic); the
lossy 32-bit narrowing applied by the NetCDF layer when persisting `'f'`
variables is abstracted as an arbitrary per-scalar cast `f32 : ℚ → ℚ` passed
to the storage operations.  The exponentially spaced temperature ladder of
`ParallelTempering.create` uses the real exponential and is embedded over `ℝ`.
-/

namespace Repex

/-- Error taxonomy of the specification (spec §7).  Python raise sites are
mapped onto the spec's categories: every construction-time rejection of
invalid states or inputs (raised in the sources as `ValueError`,
`AssertionError`, `TypeError` or `IndexError` during construction) is
`configurationError`; a checkpoint target missing required static or
iteration data during restore is `resumeError`; remaining argument errors
(`ValueError` in `ParallelTempering.create` temperature dispatch and in
`HDF5MultiTrajectoryFile.write`) are `valueError`. -/
inductive Err where
  | configurationError
  | resumeError
  | valueError
deriving DecidableEq, Repr

/-! ## Thermodynamic data model

`repex/thermodynamics.py` is not under `src/`; the fields below are the ones
the sources under `src/` actually read: `temperature`, `pressure`, `system`,
and — inside the system — the optional `MonteCarloBarostat` force with its
temperature and random-number seed, plus a serialized remainder. -/

/-- The `MonteCarloBarostat` force of an OpenMM system: the two fields that
`IgnoreBarostat` (parallel_tempering.py lines 148-246) reads and writes. -/
structure Barostat where
  temperature : ℚ
  seed : ℤ
deriving DecidableEq, Repr

/-- An OpenMM `System` as seen by the sources: at most one
`MonteCarloBarostat` force (multiple barostats are rejected by
`IgnoreBarostat.get_num_barostats`), the atom count, and everything else in
the serialized system collapsed into `rest`. -/
structure MMSystem where
  barostat : Option Barostat
  n_atoms : ℕ
  rest : ℤ
deriving DecidableEq, Repr

/-- Python `system.__getstate__()`: the XML serialization of the full system,
embedded as the tuple of all model fields. -/
def MMSystem.getstate (s : MMSystem) : Option (ℚ × ℤ) × ℕ × ℤ :=
  (s.barostat.map (fun b => (b.temperature, b.seed)), s.n_atoms, s.rest)

/-- A `ThermodynamicState`: temperature, optional pressure, and the system. -/
structure ThermodynamicState where
  temperature : ℚ
  pressure : Option ℚ
  system : MMSystem
deriving DecidableEq, Repr

/-! ## ParallelTempering._compute_energies (parallel_tempering.py lines 56-79)

The Python method mutates the matrix `self.u_kl` in place through two nested
loops over `range(self.n_states)`.  The embedding threads the matrix (a total
function `ℕ → ℕ → ℚ`) through the same two folds, performing one pointwise
update per `(replica_index, state_index)` pair. -/

/-- Pointwise in-place assignment `u[i, k] = v` on the energy matrix. -/
def matrixUpdate (u : ℕ → ℕ → ℚ) (i k : ℕ) (v : ℚ) : ℕ → ℕ → ℚ :=
  fun i2 k2 => if i2 = i ∧ k2 = k then v else u i2 k2

/-- Python `ParallelTempering._compute_energies`: for every replica and state,
`u_kl[replica_index, state_index] = beta * potential_energy` with
`beta = 1.0 / (kB * thermodynamic_states[state_index].temperature)` and
`potential_energy = sampler_states[replica_index].potential_energy`.
`temperatures` lists the state temperatures and `potentials` the cached
per-replica raw potential energies; `u0` is the pre-existing matrix being
overwritten.  (`kB` comes from `repex/constants.py`, not under `src/`, and is
kept as a parameter.) -/
def compute_energies (kB : ℚ) (temperatures potentials : List ℚ)
    (u0 : ℕ → ℕ → ℚ) : ℕ → ℕ → ℚ :=
  let n := temperatures.length
  (List.range n).foldl (fun u replica_index =>
    (List.range n).foldl (fun u state_index =>
      matrixUpdate u replica_index state_index
        (1 / (kB * temperatures.getD state_index 0) *
          potentials.getD replica_index 0)) u) u0

section ComputeEnergiesLemmas

/-- The inner loop over states leaves rows other than `i` untouched. -/
theorem inner_foldl_ne (m i i2 k2 : ℕ) (f : ℕ → ℚ) (hne : i2 ≠ i) :
    ∀ u : ℕ → ℕ → ℚ,
      ((List.range m).foldl (fun u k => matrixUpdate u i k (f k)) u) i2 k2 =
        u i2 k2 := by
  induction m with
  | zero => intro u; simp
  | succ m ih =>
    intro u
    rw [List.range_succ, List.foldl_append]
    simp only [List.foldl_cons, List.foldl_nil, matrixUpdate]
    rw [if_neg (fun hc => absurd hc.1 hne)]
    exact ih u

/-- After the inner loop over states, every column `k < m` of row `i` holds
the freshly written value. -/
theorem inner_foldl_eq (m i k : ℕ) (f : ℕ → ℚ) (hk : k < m) :
    ∀ u : ℕ → ℕ → ℚ,
      ((List.range m).foldl (fun u k => matrixUpdate u i k (f k)) u) i k =
        f k := by
  induction m with
  | zero => omega
  | succ m ih =>
    intro u
    rw [List.range_succ, List.foldl_append]
    simp only [List.foldl_cons, List.foldl_nil, matrixUpdate]
    rcases Nat.lt_succ_iff_lt_or_eq.mp hk with h | h
    · rw [if_neg (fun hc => absurd hc.2 (Nat.ne_of_lt h))]
      exact ih h u
    · subst h
      simp

/-- After the outer loop over replicas, every entry `(i, k)` with `i < m` and
`k < n` holds the freshly written value, whatever matrix the fold started
from. -/
theorem outer_foldl_eq (m n i k : ℕ) (g : ℕ → ℕ → ℚ) (hi : i < m)
    (hk : k < n) :
    ∀ u : ℕ → ℕ → ℚ,
      ((List.range m).foldl (fun u i2 =>
        (List.range n).foldl (fun u k2 => matrixUpdate u i2 k2 (g i2 k2)) u)
          u) i k = g i k := by
  induction m with
  | zero => omega
  | succ m ih =>
    intro u
    rw [List.range_succ, List.foldl_append]
    simp only [List.foldl_cons, List.foldl_nil]
    rcases Nat.lt_succ_iff_lt_or_eq.mp hi with h | h
    · rw [inner_foldl_ne n m i k (g m) (Nat.ne_of_lt h)]
      exact ih h u
    · subst h
      exact inner_foldl_eq n i k (g i) hk _

end ComputeEnergiesLemmas

/-- C1.  For the parallel-tempering energy specialization, every entry of the
freshly computed matrix satisfies `u[i, k] = β_k · U_i` where
`β_k = 1 / (kB · T_k)` and `U_i` is replica `i`'s cached raw potential
energy.  The previous matrix `u0` is universally quantified and absent from
the right-hand side: every entry in range is overwritten, none is left
stale. -/
theorem compute_energies_linear_in_beta (kB : ℚ) (temperatures potentials : List ℚ)
    (u0 : ℕ → ℕ → ℚ) (i k : ℕ) (hi : i < temperatures.length)
    (hk : k < temperatures.length) :
    compute_energies kB temperatures potentials u0 i k =
      1 / (kB * temperatures.getD k 0) * potentials.getD i 0 := by
  unfold compute_energies
  exact outer_foldl_eq temperatures.length temperatures.length i k
    (fun i2 k2 => 1 / (kB * temperatures.getD k2 0) * potentials.getD i2 0)
    hi hk u0

/-- Witness for C1: with `kB = 1`, temperatures `[2, 4]`, cached potentials
`[8, 12]` and a stale matrix constantly `99`, entry `(0, 1)` is
`(1/4) · 8 = 2`. -/
theorem compute_energies_linear_in_beta_witness :
    compute_energies 1 [2, 4] [8, 12] (fun _ _ => 99) 0 1 = 2 := by
  have h := compute_energies_linear_in_beta 1 [2, 4] [8, 12]
    (fun _ _ => 99) 0 1 (by decide) (by decide)
  rw [h]
  norm_num

/-! ## IgnoreBarostat (parallel_tempering.py lines 148-246)

A context manager that snapshots every state's barostat temperature and
random seed, normalizes them to the sentinel `1`, runs the body, and restores
the snapshots in `__exit__` — which Python runs whether or not the body
raised, and which returns `False`, so a body exception is never suppressed.
The embedding passes the state list explicitly; a body exception is an
`Except.error` value, over which the exit step still runs. -/

/-- Python `IgnoreBarostat.get_num_barostats`: the number of `MonteCarloBarostat`
forces of a state's system (the model admits at most one; the Python code
raises on more than one, which the model cannot represent). -/
def get_num_barostats (s : ThermodynamicState) : ℕ :=
  match s.system.barostat with
  | some _ => 1
  | none => 0

/-- Python `IgnoreBarostat.get_barostat_state`: returns the barostat temperature and
seed; raises if `num_barostats <= 0` (mapped to `configurationError`: raised
while validating states at construction), and fails when the state has no
barostat force (Python: the loop body never binds `temperature`). -/
def get_barostat_state (numBarostats : ℕ) (s : ThermodynamicState) :
    Except Err (ℚ × ℤ) :=
  if numBarostats = 0 then .error .configurationError
  else
    match s.system.barostat with
    | some b => .ok (b.temperature, b.seed)
    | none => .error .configurationError

/-- Python `IgnoreBarostat.set_barostat_state`: writes temperature and seed into the
barostat force, if any; raises if `num_barostats <= 0`.  Only the barostat
fields of the system are touched. -/
def set_barostat_state (numBarostats : ℕ) (s : ThermodynamicState)
    (t : ℚ) (seed : ℤ) : Except Err ThermodynamicState :=
  if numBarostats = 0 then .error .configurationError
  else .ok { s with system :=
    { s.system with barostat := s.system.barostat.map (fun _ => ⟨t, seed⟩) } }

/-- Python `IgnoreBarostat.__init__`: computes each state's barostat count and
asserts they are all equal (`assert num_barostats.min() == num_barostats.max()`;
numpy `min` of an empty array also raises).  Returns the common count. -/
def ignoreBarostatInit (states : List ThermodynamicState) : Except Err ℕ :=
  match states.map get_num_barostats with
  | [] => .error .configurationError
  | c :: cs =>
    if cs.all (fun x => decide (x = c)) then .ok c
    else .error .configurationError

/-- The per-state body of `IgnoreBarostat.__enter__`: snapshot the barostat
state, then normalize it to the sentinel `(1, 1)`. -/
def ignoreBarostatEnter (c : ℕ) :
    List ThermodynamicState → Except Err (List (ℚ × ℤ) × List ThermodynamicState)
  | [] => .ok ([], [])
  | s :: rest => do
      let snap ← get_barostat_state c s
      let s1 ← set_barostat_state c s 1 1
      let (snaps, rest1) ← ignoreBarostatEnter c rest
      .ok (snap :: snaps, s1 :: rest1)

/-- Python `IgnoreBarostat.__enter__`: a no-op when there are no barostats,
otherwise snapshot-and-normalize every state. -/
def ignoreBarostatEnterAll (c : ℕ) (states : List ThermodynamicState) :
    Except Err (List (ℚ × ℤ) × List ThermodynamicState) :=
  if c = 0 then .ok ([], states) else ignoreBarostatEnter c states

/-- The per-state body of `IgnoreBarostat.__exit__`: write each snapshot
back (Python indexes `self.temperatures[k]`, so a short snapshot list is an
index error). -/
def ignoreBarostatRestore (c : ℕ) :
    List (ℚ × ℤ) → List ThermodynamicState → Except Err (List ThermodynamicState)
  | _, [] => .ok []
  | [], _ :: _ => .error .configurationError
  | snap :: snaps, s :: rest => do
      let s1 ← set_barostat_state c s snap.1 snap.2
      let rest1 ← ignoreBarostatRestore c snaps rest
      .ok (s1 :: rest1)

/-- Python `IgnoreBarostat.__exit__`: a no-op when there are no barostats,
otherwise restore every snapshot; always returns `False`, so it never
suppresses the body's exception. -/
def ignoreBarostatExitAll (c : ℕ) (snaps : List (ℚ × ℤ))
    (states : List ThermodynamicState) : Except Err (List ThermodynamicState) :=
  if c = 0 then .ok states else ignoreBarostatRestore c snaps states

/-- The `with IgnoreBarostat(thermodynamic_states):` block: construct, enter,
run the body (its exception, if any, becomes the inner `Except` value), exit
regardless, and hand back both the body's outcome and the final state
list. -/
def runIgnoreBarostat {α : Type} (states : List ThermodynamicState)
    (body : List ThermodynamicState → Except Err α) :
    Except Err (Except Err α × List ThermodynamicState) := do
  let c ← ignoreBarostatInit states
  let (snaps, normalized) ← ignoreBarostatEnterAll c states
  let r := body normalized
  let restored ← ignoreBarostatExitAll c snaps normalized
  .ok (r, restored)

/-- The normalization `__enter__` applies to one state: barostat temperature
and seed set to the sentinel `(1, 1)`; everything else untouched. -/
def normalizeBarostat (s : ThermodynamicState) : ThermodynamicState :=
  { s with system :=
    { s.system with barostat := s.system.barostat.map (fun _ => ⟨1, 1⟩) } }

/-- Serialized system of a state with barostat temperature and seed
normalized: what the parallel-tempering consistency check actually
compares. -/
def getstateModulo (s : ThermodynamicState) : Option (ℚ × ℤ) × ℕ × ℤ :=
  (normalizeBarostat s).system.getstate

/-! ## Construction-time self-consistency checks -/

/-- Python `HamiltonianExchange._check_self_consistency` (hamiltonian_exchange.py
lines 27-38): raises if any two states differ in pressure, then if any two
differ in temperature.  The nested `for`/`raise` loops are embedded as
existence of an offending pair. -/
def HamiltonianExchange.check_self_consistency
    (states : List ThermodynamicState) : Except Err Unit :=
  if states.any (fun s0 => states.any (fun s1 =>
      decide (s0.pressure ≠ s1.pressure))) then .error .configurationError
  else if states.any (fun s0 => states.any (fun s1 =>
      decide (s0.temperature ≠ s1.temperature))) then .error .configurationError
  else .ok ()

/-- Python `HamiltonianExchange.__init__` (lines 23-25): runs the self-consistency
check before anything else; `ReplicaExchange.__init__` (in
`replica_exchange.py`, not under `src/`) is per the spec pure bookkeeping
that runs no iteration, so a check failure aborts construction before any
iteration can run. -/
def HamiltonianExchange.init (states : List ThermodynamicState) :
    Except Err Unit := do
  HamiltonianExchange.check_self_consistency states

/-- Python `ParallelTempering._check_self_consistency` (parallel_tempering.py lines
39-53): raises if any two states differ in pressure; then, inside the
`IgnoreBarostat` scope, raises if any two states' serialized systems differ
(the barostat temperature and seed having been normalized away). -/
def ParallelTempering.check_self_consistency
    (states : List ThermodynamicState) : Except Err Unit :=
  if states.any (fun s0 => states.any (fun s1 =>
      decide (s0.pressure ≠ s1.pressure))) then .error .configurationError
  else
    match runIgnoreBarostat states (fun sts =>
      if sts.any (fun s0 => sts.any (fun s1 =>
          decide (s0.system.getstate ≠ s1.system.getstate))) then
        .error Err.configurationError
      else .ok ()) with
    | .error e => .error e
    | .ok (r, _) => r

/-- Python `ParallelTempering.__init__` (lines 35-37): the self-consistency check
runs before `ReplicaExchange.__init__`, which runs no iteration. -/
def ParallelTempering.init (states : List ThermodynamicState) :
    Except Err Unit := do
  ParallelTempering.check_self_consistency states

/-! ### Behaviour of the IgnoreBarostat scope -/

/-- The snapshot `__enter__` takes of one state (junk on a barostat-free
state, where `__enter__` never reads it). -/
def barostatSnapshot (s : ThermodynamicState) : ℚ × ℤ :=
  match s.system.barostat with
  | some b => (b.temperature, b.seed)
  | none => (1, 1)

theorem get_num_barostats_eq_zero (s : ThermodynamicState) :
    get_num_barostats s = 0 ↔ s.system.barostat = none := by
  cases h : s.system.barostat <;> simp [get_num_barostats, h]

theorem get_num_barostats_cases (s : ThermodynamicState) :
    get_num_barostats s = 0 ∨ get_num_barostats s = 1 := by
  cases h : s.system.barostat <;> simp [get_num_barostats, h]

/-- A successful `IgnoreBarostat.__init__` means the state list is nonempty
and every state has exactly the common barostat count. -/
theorem ignoreBarostatInit_ok (states : List ThermodynamicState) (c : ℕ)
    (h : ignoreBarostatInit states = .ok c) :
    states ≠ [] ∧ ∀ s ∈ states, get_num_barostats s = c := by
  cases states with
  | nil => simp [ignoreBarostatInit] at h
  | cons s rest =>
    refine ⟨by simp, ?_⟩
    simp only [ignoreBarostatInit, List.map_cons] at h
    by_cases hall : (rest.map get_num_barostats).all
        (fun x => decide (x = get_num_barostats s)) = true
    · rw [if_pos hall] at h
      have hc : get_num_barostats s = c := by
        injection h
      intro t ht
      rcases List.mem_cons.mp ht with rfl | ht2
      · exact hc
      · have := List.all_eq_true.mp hall (get_num_barostats t)
          (List.mem_map_of_mem _ ht2)
        rw [← hc]
        exact of_decide_eq_true this
    · rw [if_neg hall] at h
      exact absurd h (by simp)

/-- A failing `IgnoreBarostat.__init__` fails with the construction-time
error. -/
theorem ignoreBarostatInit_error (states : List ThermodynamicState) (e : Err)
    (h : ignoreBarostatInit states = .error e) : e = .configurationError := by
  cases states with
  | nil => simpa [ignoreBarostatInit] using h.symm
  | cons s rest =>
    simp only [ignoreBarostatInit, List.map_cons] at h
    by_cases hall : (rest.map get_num_barostats).all
        (fun x => decide (x = get_num_barostats s)) = true
    · rw [if_pos hall] at h; exact absurd h (by simp)
    · rw [if_neg hall] at h
      injection h with h2
      exact h2.symm

/-- Reduction of a bind whose first component already succeeded. -/
theorem bind_ok {α β : Type} (a : α) (f : α → Except Err β) :
    (Except.ok a >>= f : Except Err β) = f a := rfl

theorem normalizeBarostat_of_none (s : ThermodynamicState)
    (h : s.system.barostat = none) : normalizeBarostat s = s := by
  obtain ⟨t, p, sys⟩ := s
  obtain ⟨bar, na, r⟩ := sys
  simp only at h
  subst h
  rfl

theorem map_normalizeBarostat_of_none (l : List ThermodynamicState)
    (h : ∀ s ∈ l, s.system.barostat = none) : l.map normalizeBarostat = l := by
  induction l with
  | nil => rfl
  | cons s rest ih =>
    rw [List.map_cons, normalizeBarostat_of_none s (h s (by simp)),
      ih (fun t ht => h t (List.mem_cons_of_mem _ ht))]

/-- With a barostat in every state, `__enter__` returns the per-state
snapshots and the sentinel-normalized states. -/
theorem ignoreBarostatEnter_some (l : List ThermodynamicState)
    (h : ∀ s ∈ l, s.system.barostat.isSome = true) :
    ignoreBarostatEnter 1 l = .ok (l.map barostatSnapshot, l.map normalizeBarostat) := by
  induction l with
  | nil => rfl
  | cons s rest ih =>
    have ihr := ih (fun t ht => h t (List.mem_cons_of_mem _ ht))
    obtain ⟨t, p, sys⟩ := s
    obtain ⟨bar, na, r⟩ := sys
    have hbar := h _ (List.mem_cons_self _ _)
    simp only at hbar
    obtain ⟨bt, bs⟩ := Option.isSome_iff_exists.mp hbar
    subst bs
    simp [ignoreBarostatEnter, get_barostat_state, set_barostat_state, ihr,
      barostatSnapshot, normalizeBarostat, bind_ok]

/-- With a barostat in every state, `__exit__` writes every snapshot back and
recovers exactly the original states. -/
theorem ignoreBarostatRestore_some (l : List ThermodynamicState)
    (h : ∀ s ∈ l, s.system.barostat.isSome = true) :
    ignoreBarostatRestore 1 (l.map barostatSnapshot) (l.map normalizeBarostat) =
      .ok l := by
  induction l with
  | nil => rfl
  | cons s rest ih =>
    have ihr := ih (fun t ht => h t (List.mem_cons_of_mem _ ht))
    obtain ⟨t, p, sys⟩ := s
    obtain ⟨bar, na, r⟩ := sys
    have hbar := h _ (List.mem_cons_self _ _)
    simp only at hbar
    obtain ⟨bt, bs⟩ := Option.isSome_iff_exists.mp hbar
    subst bs
    obtain ⟨btt, bts⟩ := bt
    simp [ignoreBarostatRestore, set_barostat_state, normalizeBarostat,
      barostatSnapshot, ihr, bind_ok]

/-- Whenever the `IgnoreBarostat` constructor succeeds, the whole `with`
block returns the body's outcome evaluated on the sentinel-normalized states,
and the final state list is exactly the original one — on every exit path,
because `__exit__` runs after a body exception too and suppresses nothing. -/
theorem runIgnoreBarostat_ok {α : Type} (states : List ThermodynamicState)
    (body : List ThermodynamicState → Except Err α) (c : ℕ)
    (hinit : ignoreBarostatInit states = .ok c) :
    runIgnoreBarostat states body =
      .ok (body (states.map normalizeBarostat), states) := by
  obtain ⟨hne, hall⟩ := ignoreBarostatInit_ok states c hinit
  by_cases hc : c = 0
  · subst hc
    have hnone : ∀ s ∈ states, s.system.barostat = none := fun s hs =>
      (get_num_barostats_eq_zero s).mp (hall s hs)
    simp [runIgnoreBarostat, hinit, bind_ok, ignoreBarostatEnterAll,
      ignoreBarostatExitAll, map_normalizeBarostat_of_none states hnone]
  · have hc1 : c = 1 := by
      cases states with
      | nil => exact absurd rfl hne
      | cons s rest =>
        rcases get_num_barostats_cases s with h0 | h0 <;>
          rw [hall s (by simp)] at h0 <;> omega
    subst hc1
    have hsome : ∀ s ∈ states, s.system.barostat.isSome = true := by
      intro s hs
      have := hall s hs
      cases hb : s.system.barostat with
      | none => rw [(get_num_barostats_eq_zero s).mpr hb] at this; omega
      | some b => rfl
    simp [runIgnoreBarostat, hinit, bind_ok, ignoreBarostatEnterAll,
      ignoreBarostatExitAll, ignoreBarostatEnter_some states hsome,
      ignoreBarostatRestore_some states hsome]

/-- The whole `with IgnoreBarostat(...)` block either completes with body
outcome and restored states, or aborts with the construction-time error. -/
theorem runIgnoreBarostat_total {α : Type} (states : List ThermodynamicState)
    (body : List ThermodynamicState → Except Err α) :
    runIgnoreBarostat states body =
        .ok (body (states.map normalizeBarostat), states) ∨
      runIgnoreBarostat states body = .error .configurationError := by
  cases hinit : ignoreBarostatInit states with
  | ok c => exact Or.inl (runIgnoreBarostat_ok states body c hinit)
  | error e =>
    right
    have he := ignoreBarostatInit_error states e hinit
    unfold runIgnoreBarostat
    rw [hinit, he]
    rfl

/-- C5.  The barostat-normalizing comparison helper restores every barostat's
original temperature and seed on every exit path: whenever the scope is
entered, the final state list equals the original one exactly (so nothing
besides the barostat fields was ever disturbed), and the block's outcome is
the body's own outcome — in particular a body exception is handed through
unsuppressed. -/
theorem ignore_barostat_restores_on_exit {α : Type}
    (states : List ThermodynamicState)
    (body : List ThermodynamicState → Except Err α) (c : ℕ)
    (hinit : ignoreBarostatInit states = .ok c) :
    runIgnoreBarostat states body =
        .ok (body (states.map normalizeBarostat), states) ∧
      ∀ e, body (states.map normalizeBarostat) = .error e →
        runIgnoreBarostat states body = .ok (.error e, states) := by
  refine ⟨runIgnoreBarostat_ok states body c hinit, fun e he => ?_⟩
  rw [runIgnoreBarostat_ok states body c hinit, he]

/-- A state carrying a barostat, for the witnesses. -/
def stateWithBarostat : ThermodynamicState :=
  { temperature := 300, pressure := some 1,
    system := { barostat := some { temperature := 250, seed := 42 },
                n_atoms := 3, rest := 7 } }

/-- Witness for C5: one state with barostat `(250, 42)` and a body that
raises; the block returns the body's error and the untouched original
state. -/
theorem ignore_barostat_restores_on_exit_witness :
    runIgnoreBarostat [stateWithBarostat]
        (fun _ => (Except.error Err.valueError : Except Err Unit)) =
      .ok (.error .valueError, [stateWithBarostat]) :=
  (ignore_barostat_restores_on_exit [stateWithBarostat]
    (fun _ => (Except.error Err.valueError : Except Err Unit)) 1 rfl).1

/-- C2.  Construction-time rejection: a Hamiltonian-exchange run whose states
contain two states of different temperature (or different pressure), and a
parallel-tempering run whose states contain two states of different pressure
or different system definitions modulo barostat temperature and seed, both
fail with the construction-time configuration error — before any iteration
can run, since no engine object is ever produced. -/
theorem construction_rejects_inconsistent_states
    (states : List ThermodynamicState) (s0 s1 : ThermodynamicState)
    (h0 : s0 ∈ states) (h1 : s1 ∈ states) :
    ((s0.temperature ≠ s1.temperature ∨ s0.pressure ≠ s1.pressure) →
      HamiltonianExchange.init states = .error .configurationError) ∧
    ((s0.pressure ≠ s1.pressure ∨ getstateModulo s0 ≠ getstateModulo s1) →
      ParallelTempering.init states = .error .configurationError) := by
  constructor
  · intro h
    show HamiltonianExchange.check_self_consistency states = _
    unfold HamiltonianExchange.check_self_consistency
    by_cases hP : states.any (fun s0 => states.any (fun s1 =>
        decide (s0.pressure ≠ s1.pressure))) = true
    · rw [if_pos hP]
    · have hpress : s0.pressure = s1.pressure := by
        by_contra hne
        exact hP (List.any_eq_true.mpr ⟨s0, h0,
          List.any_eq_true.mpr ⟨s1, h1, decide_eq_true hne⟩⟩)
      have htemp : s0.temperature ≠ s1.temperature := by
        rcases h with h | h
        · exact h
        · exact absurd hpress h
      rw [if_neg hP, if_pos (List.any_eq_true.mpr ⟨s0, h0,
        List.any_eq_true.mpr ⟨s1, h1, decide_eq_true htemp⟩⟩)]
  · intro h
    show ParallelTempering.check_self_consistency states = _
    unfold ParallelTempering.check_self_consistency
    by_cases hP : states.any (fun s0 => states.any (fun s1 =>
        decide (s0.pressure ≠ s1.pressure))) = true
    · rw [if_pos hP]
    · have hpress : s0.pressure = s1.pressure := by
        by_contra hne
        exact hP (List.any_eq_true.mpr ⟨s0, h0,
          List.any_eq_true.mpr ⟨s1, h1, decide_eq_true hne⟩⟩)
      have hsys : getstateModulo s0 ≠ getstateModulo s1 := by
        rcases h with h | h
        · exact absurd hpress h
        · exact h
      rw [if_neg hP]
      rcases runIgnoreBarostat_total states (fun sts =>
        if sts.any (fun s0 => sts.any (fun s1 =>
            decide (s0.system.getstate ≠ s1.system.getstate))) then
          .error Err.configurationError
        else .ok ()) with hrun | hrun
      · rw [hrun]
        have hbody : (states.map normalizeBarostat).any (fun t0 =>
            (states.map normalizeBarostat).any (fun t1 =>
              decide (t0.system.getstate ≠ t1.system.getstate))) = true :=
          List.any_eq_true.mpr ⟨normalizeBarostat s0, List.mem_map_of_mem _ h0,
            List.any_eq_true.mpr ⟨normalizeBarostat s1, List.mem_map_of_mem _ h1,
              decide_eq_true hsys⟩⟩
        rw [if_pos hbody]
      · rw [hrun]

/-- Two states that differ in temperature, pressure and system, for the C2
witness. -/
def inconsistentStateA : ThermodynamicState :=
  { temperature := 300, pressure := some 1,
    system := { barostat := none, n_atoms := 3, rest := 0 } }

/-- Companion to `inconsistentStateA`. -/
def inconsistentStateB : ThermodynamicState :=
  { temperature := 400, pressure := some 2,
    system := { barostat := none, n_atoms := 3, rest := 5 } }

/-- Witness for C2: two concrete states with different temperatures,
pressures and systems are rejected by both constructors. -/
theorem construction_rejects_inconsistent_states_witness :
    HamiltonianExchange.init [inconsistentStateA, inconsistentStateB] =
        .error .configurationError ∧
      ParallelTempering.init [inconsistentStateA, inconsistentStateB] =
        .error .configurationError :=
  ⟨(construction_rejects_inconsistent_states
      [inconsistentStateA, inconsistentStateB]
      inconsistentStateA inconsistentStateB (by simp) (by simp)).1
      (Or.inl (by decide)),
    (construction_rejects_inconsistent_states
      [inconsistentStateA, inconsistentStateB]
      inconsistentStateA inconsistentStateB (by simp) (by simp)).2
      (Or.inl (by decide))⟩

/-! ## NetCDFDatabase (netcdf_io.py)

The NetCDF file is embedded as a structure holding the two static groups
(`thermodynamic_states` and `options`, both optional, since a resumed file
may lack them) and the per-iteration time series as one list of rows (the
netCDF unlimited `iteration` dimension; every per-iteration variable is
written for every row by `output_iteration`, so one row bundles all of
them).  Variables of netCDF type `'f'` narrow scalars to 32-bit floats on
write and widen exactly on read: the narrowing is the parameter
`f32 : ℚ → ℚ`, applied once per stored scalar. -/

/-- One row of the per-iteration time series, exactly the keyword set
`output_iteration` requires (netcdf_io.py line 391). -/
structure IterationRecord where
  coordinates : List (List (List ℚ))
  box_vectors : List (List (List ℚ))
  volumes : List ℚ
  replica_states : List ℤ
  energies : List (List ℚ)
  proposed : List (List ℤ)
  accepted : List (List ℤ)
  time : String
deriving DecidableEq, Repr

/-- Narrowing applied when a row is stored: positions, box vectors, volumes
and energies live in `'f'` (32-bit) variables, while states, proposed and
accepted counts are integer variables and the timestamp is a string, all
stored exactly. -/
def castRecord (f32 : ℚ → ℚ) (r : IterationRecord) : IterationRecord :=
  { coordinates := r.coordinates.map (List.map (List.map f32)),
    box_vectors := r.box_vectors.map (List.map (List.map f32)),
    volumes := r.volumes.map f32,
    replica_states := r.replica_states,
    energies := r.energies.map (List.map f32),
    proposed := r.proposed,
    accepted := r.accepted,
    time := r.time }

/-- The serialized `thermodynamic_states` static group
(`_store_thermodynamic_states`, netcdf_io.py lines 176-213): the state
count, the temperatures, the pressures when state 0 has one, and each
serialized system. -/
structure StatesGroup where
  n_states : ℕ
  temperatures : List ℚ
  pressures : Option (List ℚ)
  systems : List (Option (ℚ × ℤ) × ℕ × ℤ)
deriving DecidableEq, Repr

/-- The scalar value a stored option variable holds (after unit stripping
and bool-to-int conversion). -/
inductive StoredScalar where
  | sInt (i : ℤ)
  | sFloat (q : ℚ)
  | sStr (s : String)
deriving DecidableEq, Repr

/-- The Python type name recorded in the variable's `type` attribute. -/
inductive TypeTag where
  | tInt
  | tFloat
  | tBool
  | tStr
deriving DecidableEq, Repr

/-- A simtk unit object.  The sources persist it as `str(option_unit)` and
rebuild it with `eval` over `vars(units)` (including the leading-slash fixup
on load); that serialization belongs to the external units collaborator
(spec §6 places unit serialization out of scope) and is embedded as the unit
itself. -/
structure UnitT where
  name : String
deriving DecidableEq, Repr

/-- One variable of the `options` group: the stored scalar, the recorded
Python type tag, and the `units` attribute when the original value was a
`Quantity`. -/
structure StoredOptionVar where
  tag : TypeTag
  value : StoredScalar
  unit : Option UnitT
deriving DecidableEq, Repr

/-- A scalar run option as the engine holds it: one of the five Python types
the options record can carry. -/
inductive OptionValue where
  | int (i : ℤ)
  | float (q : ℚ)
  | bool (b : Bool)
  | str (s : String)
  | quantity (q : ℚ) (unit : UnitT)
deriving DecidableEq, Repr

/-- The per-option body of `_store_options` (netcdf_io.py lines 269-294):
strip the unit off a `Quantity`, record the Python type of the stripped
value, convert a boolean to an integer, store the scalar, and tag the
variable with the unit (if any) and the type name. -/
def storeOption : OptionValue → StoredOptionVar
  | .int i => { tag := .tInt, value := .sInt i, unit := none }
  | .float q => { tag := .tFloat, value := .sFloat q, unit := none }
  | .bool b => { tag := .tBool, value := .sInt (if b then 1 else 0), unit := none }
  | .str s => { tag := .tStr, value := .sStr s, unit := none }
  | .quantity q u => { tag := .tFloat, value := .sFloat q, unit := some u }

/-- The per-option body of `load_options` (netcdf_io.py lines 313-330): cast
the stored scalar back through the recorded type
(`eval(type_name + repr(value))`), then reattach the unit if the variable
carries one.  Combinations no store ever produces are `none`. -/
def loadOption (v : StoredOptionVar) : Option OptionValue :=
  let cast : Option OptionValue :=
    match v.tag, v.value with
    | .tInt, .sInt i => some (.int i)
    | .tFloat, .sFloat q => some (.float q)
    | .tBool, .sInt i => some (.bool (decide (i ≠ 0)))
    | .tStr, .sStr s => some (.str s)
    | _, _ => none
  match v.unit with
  | none => cast
  | some u =>
    match cast with
    | some (.float q) => some (.quantity q u)
    | some (.int i) => some (.quantity i u)
    | _ => none

/-- Python `_store_options` over the whole option mapping. -/
def store_options (opts : List (String × OptionValue)) :
    List (String × StoredOptionVar) :=
  opts.map (fun p => (p.1, storeOption p.2))

/-- The loop of `load_options` over every variable of the group. -/
def loadOptionVars :
    List (String × StoredOptionVar) → Except Err (List (String × OptionValue))
  | [] => .ok []
  | (n, v) :: rest =>
    match loadOption v with
    | none => .error .resumeError
    | some val => do
        let r ← loadOptionVars rest
        .ok ((n, val) :: r)

/-- The embedded NetCDF checkpoint file. -/
structure NCFile where
  thermodynamic_states : Option StatesGroup
  options : Option (List (String × StoredOptionVar))
  rows : List IterationRecord
deriving DecidableEq, Repr

/-- Python `NetCDFDatabase.output_iteration` (netcdf_io.py lines 388-405): assigns
every per-iteration variable at index `iteration` and syncs.  Assigning at
the index one past the end of the unlimited dimension appends a row;
assigning below it overwrites that row.  (Assigning further out would grow
the dimension with fill values; no caller does that and it is not
modelled.) -/
def output_iteration (f32 : ℚ → ℚ) (db : NCFile) (iteration : ℕ)
    (rec : IterationRecord) : NCFile :=
  if iteration = db.rows.length then
    { db with rows := db.rows ++ [castRecord f32 rec] }
  else
    { db with rows := db.rows.set iteration (castRecord f32 rec) }

/-- Python `NetCDFDatabase._load_last_iteration` (netcdf_io.py lines 334-385):
`iteration = positions.shape[0] - 1`, read positions, box vectors and
energies at that row (widening to 64-bit is exact), then return them with
`iteration + 1` — the next iteration to work on.  An empty time series makes
the reads fail (mapped to the resume error: the store is missing required
iteration data). -/
def load_last_iteration (db : NCFile) :
    Except Err (List (List (List ℚ)) × List (List (List ℚ)) ×
      List (List ℚ) × ℕ) :=
  let iteration := db.rows.length - 1
  match db.rows.get? iteration with
  | none => .error .resumeError
  | some r => .ok (r.coordinates, r.box_vectors, r.energies, iteration + 1)

/-- Python `NetCDFDatabase.load_thermodynamic_states` (netcdf_io.py lines 216-253):
raises if the file has no `thermodynamic_states` group, otherwise rebuilds
one `ThermodynamicState` per stored index: temperature from the list,
pressure when the group stores pressures, and the system deserialized from
its stored state. -/
def load_thermodynamic_states (db : NCFile) :
    Except Err (List ThermodynamicState) :=
  match db.thermodynamic_states with
  | none => .error .resumeError
  | some g => .ok ((List.range g.n_states).map (fun i =>
      { temperature := g.temperatures.getD i 0,
        pressure := g.pressures.map (fun ps => ps.getD i 0),
        system :=
          { barostat := (g.systems.getD i (none, 0, 0)).1.map
              (fun p => { temperature := p.1, seed := p.2 }),
            n_atoms := (g.systems.getD i (none, 0, 0)).2.1,
            rest := (g.systems.getD i (none, 0, 0)).2.2 } }))

/-- Python `NetCDFDatabase.load_options` (netcdf_io.py lines 296-332): raises if
the file has no `options` group, otherwise loads every stored variable. -/
def load_options (db : NCFile) :
    Except Err (List (String × OptionValue)) :=
  match db.options with
  | none => .error .resumeError
  | some vars => loadOptionVars vars

/-- Python `NetCDFDatabase.restore_database` (netcdf_io.py lines 61-66): load the
thermodynamic states, then the options, then the last iteration's
coordinates, box vectors, energies and next-iteration index. -/
def restore_database (db : NCFile) :
    Except Err (List ThermodynamicState × List (String × OptionValue) ×
      (List (List (List ℚ)) × List (List (List ℚ)) ×
        List (List ℚ) × ℕ)) := do
  let states ← load_thermodynamic_states db
  let opts ← load_options db
  let last ← load_last_iteration db
  .ok (states, opts, last)

/-- Reduction of a bind whose first component already failed. -/
theorem bind_error {α β : Type} (e : Err) (f : α → Except Err β) :
    (Except.error e >>= f : Except Err β) = .error e := rfl

/-- C3.  Round trip through the checkpoint store: writing an iteration
record at the index of the next unwritten row and reading the last iteration
back returns exactly the written positions, box vectors and energy matrix,
each scalar within storage precision — that is, equal to its image under the
32-bit narrowing `f32` the store applies on write. -/
theorem output_iteration_round_trip (f32 : ℚ → ℚ) (db : NCFile)
    (rec : IterationRecord) (i : ℕ) (h : i = db.rows.length) :
    load_last_iteration (output_iteration f32 db i rec) =
      .ok (rec.coordinates.map (List.map (List.map f32)),
        rec.box_vectors.map (List.map (List.map f32)),
        rec.energies.map (List.map f32), i + 1) := by
  subst h
  rw [output_iteration, if_pos rfl]
  unfold load_last_iteration
  simp only [List.length_append, List.length_cons, List.length_nil,
    Nat.add_sub_cancel, List.get?_concat_length]
  rfl

/-- Row written for the round-trip and resume witnesses. -/
def sampleRow : IterationRecord :=
  { coordinates := [[[1, 2, 3]]],
    box_vectors := [[[1, 0, 0], [0, 1, 0], [0, 0, 1]]],
    volumes := [1],
    replica_states := [0],
    energies := [[5]],
    proposed := [[0]],
    accepted := [[0]],
    time := "t0" }

/-- Witness for C3: appending `sampleRow` to an empty store at index 0 and
reading back returns its positions, box vectors and energies (under the
identity narrowing) and next-iteration index 1. -/
theorem output_iteration_round_trip_witness :
    load_last_iteration (output_iteration (fun q => q)
        { thermodynamic_states := none, options := none, rows := [] } 0
        sampleRow) =
      .ok (sampleRow.coordinates.map (List.map (List.map (fun q => q))),
        sampleRow.box_vectors.map (List.map (List.map (fun q => q))),
        sampleRow.energies.map (List.map (fun q => q)), 0 + 1) :=
  output_iteration_round_trip (fun q => q)
    { thermodynamic_states := none, options := none, rows := [] }
    sampleRow 0 rfl

/-- C4.  On resume the store hands back the row at index `n_rows - 1` of the
persisted series — its positions, box vectors and energy matrix — and
reports as current the index of that last-written row plus one, so the next
iteration to write is the loaded one plus one. -/
theorem load_last_iteration_returns_last_row (db : NCFile)
    (h : db.rows ≠ []) :
    load_last_iteration db =
      .ok ((db.rows.getLast h).coordinates, (db.rows.getLast h).box_vectors,
        (db.rows.getLast h).energies, (db.rows.length - 1) + 1) := by
  have hpos : 0 < db.rows.length := List.length_pos.mpr h
  have hlt : db.rows.length - 1 < db.rows.length := Nat.sub_lt hpos one_pos
  have h1 : db.rows.get? (db.rows.length - 1) = some (db.rows.getLast h) := by
    rw [List.get?_eq_get hlt, List.getLast_eq_get]
  simp only [load_last_iteration, h1]

/-- Witness for C4: a store holding exactly `sampleRow` resumes with that
row's data and reports iteration `(1 - 1) + 1 = 1` as current. -/
theorem load_last_iteration_returns_last_row_witness :
    load_last_iteration
        { thermodynamic_states := none, options := none, rows := [sampleRow] } =
      .ok (sampleRow.coordinates, sampleRow.box_vectors, sampleRow.energies,
        1) :=
  load_last_iteration_returns_last_row
    { thermodynamic_states := none, options := none, rows := [sampleRow] }
    (by simp)

/-- C6.  Resuming from a store that lacks the `thermodynamic_states` group,
or lacks the `options` group, fails with the resume error instead of
reconstructing an engine. -/
theorem restore_missing_static_fails (db : NCFile) :
    (db.thermodynamic_states = none →
      restore_database db = .error .resumeError) ∧
    (db.options = none → restore_database db = .error .resumeError) := by
  constructor
  · intro h
    simp [restore_database, load_thermodynamic_states, h, bind_error]
  · intro h
    cases hts : db.thermodynamic_states with
    | none =>
      simp [restore_database, load_thermodynamic_states, hts, bind_error]
    | some g =>
      simp [restore_database, load_thermodynamic_states, hts, load_options,
        h, bind_ok, bind_error]

/-- Witness for C6: the empty store is missing both static groups and fails
to resume. -/
theorem restore_missing_static_fails_witness :
    restore_database
        { thermodynamic_states := none, options := none, rows := [] } =
      .error .resumeError :=
  (restore_missing_static_fails
    { thermodynamic_states := none, options := none, rows := [] }).1 rfl

/-- One stored option casts back to the original value and Python type. -/
theorem loadOption_storeOption (v : OptionValue) :
    loadOption (storeOption v) = some v := by
  cases v with
  | int i => rfl
  | float q => rfl
  | bool b => cases b <;> rfl
  | str s => rfl
  | quantity q u => rfl

/-- The whole stored options group loads back unchanged. -/
theorem loadOptionVars_store_options (opts : List (String × OptionValue)) :
    loadOptionVars (store_options opts) = .ok opts := by
  induction opts with
  | nil => rfl
  | cons p rest ih =>
    obtain ⟨n, v⟩ := p
    have ih2 : loadOptionVars (List.map (fun p => (p.1, storeOption p.2)) rest) =
        .ok rest := by
      simpa [store_options] using ih
    simp [store_options, loadOptionVars, loadOption_storeOption v, ih2, bind_ok]

/-- C7.  Options round-trip: every scalar option that is an integer, float,
boolean, string or unit-bearing quantity — stored with its type tag, its
unit stripped to value plus unit, booleans as integers — loads back equal to
the original and of the original Python type, units reattached. -/
theorem options_round_trip :
    (∀ v : OptionValue, loadOption (storeOption v) = some v) ∧
    (∀ opts : List (String × OptionValue),
      loadOptionVars (store_options opts) = .ok opts) :=
  ⟨loadOption_storeOption, loadOptionVars_store_options⟩

/-! ## Fresh creation: `NetCDFDatabase.__init__` and `ParallelTempering.create` -/

/-- Modelled from the spec: `ThermodynamicState.is_compatible_with` lives in
`repex/thermodynamics.py`, which is not under `src/`.  Spec §3: two states
are compatible iff their system definitions have equal atom count and
ensemble class (NVT vs NPT, i.e. pressure absent vs present). -/
def is_compatible_with (s other : ThermodynamicState) : Bool :=
  decide (s.system.n_atoms = other.system.n_atoms) &&
    decide (s.pressure.isSome = other.pressure.isSome)

/-- The pressure-storing loop of `_store_thermodynamic_states` (netcdf_io.py
lines 196-202), entered when state 0 has a pressure: `pressure /
units.atmospheres` on a pressure-free state is a construction-time type
error. -/
def storePressures (f32 : ℚ → ℚ) :
    List ThermodynamicState → Except Err (List ℚ)
  | [] => .ok []
  | s :: rest =>
    match s.pressure with
    | some p => do
        let ps ← storePressures f32 rest
        .ok (f32 p :: ps)
    | none => .error .configurationError

/-- Python `NetCDFDatabase._store_thermodynamic_states` (netcdf_io.py lines
176-213): the state count, the temperatures (32-bit variables), the
pressures when state 0 has one, and every serialized system.  An empty state
list hits `thermodynamic_states[0]` and dies. -/
def store_thermodynamic_states (f32 : ℚ → ℚ)
    (states : List ThermodynamicState) : Except Err StatesGroup :=
  match states with
  | [] => .error .configurationError
  | s0 :: _ => do
    let pressures ←
      if s0.pressure.isSome then do
        let ps ← storePressures f32 states
        Except.ok (some ps)
      else Except.ok (none : Option (List ℚ))
    Except.ok { n_states := states.length,
                temperatures := states.map (fun s => f32 s.temperature),
                pressures := pressures,
                systems := states.map (fun s => s.system.getstate) }

/-- The fresh-file branch of `NetCDFDatabase.__init__` (netcdf_io.py lines
25-49): assert equal state and coordinate counts, initialize the file
(`self.coordinates[0]` dies on an empty coordinate list; the static groups
are written), then reject any state not compatible with state 0. -/
def NetCDFDatabase.initFresh (f32 : ℚ → ℚ)
    (states : List ThermodynamicState)
    (coordinates : List (List (List ℚ)))
    (opts : List (String × OptionValue)) : Except Err NCFile :=
  if states.length = coordinates.length then
    match coordinates with
    | [] => .error .configurationError
    | _ :: _ =>
      match store_thermodynamic_states f32 states with
      | .error e => .error e
      | .ok g =>
        let db : NCFile := { thermodynamic_states := some g,
                             options := some (store_options opts),
                             rows := [] }
        match states with
        | [] => .ok db
        | s0 :: _ =>
          if states.all (fun s => is_compatible_with s s0) then .ok db
          else .error .configurationError
  else .error .configurationError

/-- Modelled from the spec: `validate_coordinates` lives in
`replica_exchange.py`, which is not under `src/`; spec §6 describes it as
shape/count checking that returns the coordinates, embedded as the identity
on already-validated coordinate lists. -/
def validate_coordinates (coords : List (List (List ℚ))) :
    List (List (List ℚ)) := coords

/-- Modelled from the spec: `ReplicaExchange._run_iteration_zero` and the
round-robin initialisation live in `replica_exchange.py`, which is not under
`src/`.  Spec §4.1: `create` "performs round-robin assignment of replicas to
states (`replica_states[i] = i` initially); writes iteration 0 immediately
(coordinates, identity mapping, zero counters)". -/
def run_iteration_zero (f32 : ℚ → ℚ) (db : NCFile)
    (coordinates : List (List (List ℚ))) (n : ℕ) : NCFile :=
  output_iteration f32 db 0
    { coordinates := coordinates,
      box_vectors := List.replicate n [[0, 0, 0], [0, 0, 0], [0, 0, 0]],
      volumes := List.replicate n 0,
      replica_states := (List.range n).map (fun i : ℕ => (i : ℤ)),
      energies := List.replicate n (List.replicate n 0),
      proposed := List.replicate n (List.replicate n 0),
      accepted := List.replicate n (List.replicate n 0),
      time := "" }

/-- Python `ParallelTempering.create` (parallel_tempering.py lines 121-145) with an
explicit temperature list: build one state per temperature sharing the
system and pressure, validate the coordinates, bind the fresh NetCDF
database, run the constructor's self-consistency check, and write
iteration 0. -/
def ParallelTempering.create (f32 : ℚ → ℚ) (system : MMSystem)
    (coordinates : List (List (List ℚ))) (temperatures : List ℚ)
    (pressure : Option ℚ) (opts : List (String × OptionValue)) :
    Except Err NCFile := do
  let states := temperatures.map (fun T =>
    ({ temperature := T, pressure := pressure, system := system } :
      ThermodynamicState))
  let coords := validate_coordinates coordinates
  let db ← NetCDFDatabase.initFresh f32 states coords opts
  let _ ← ParallelTempering.init states
  .ok (run_iteration_zero f32 db coords states.length)

/-- Every database `initFresh` hands back starts with an empty time
series. -/
theorem initFresh_ok_rows (f32 : ℚ → ℚ) (states : List ThermodynamicState)
    (coordinates : List (List (List ℚ)))
    (opts : List (String × OptionValue)) (db : NCFile)
    (h : NetCDFDatabase.initFresh f32 states coordinates opts = .ok db) :
    db.rows = [] := by
  unfold NetCDFDatabase.initFresh at h
  by_cases hlen : states.length = coordinates.length
  · rw [if_pos hlen] at h
    cases coordinates with
    | nil => exact absurd h (by simp)
    | cons c cs =>
      cases hg : store_thermodynamic_states f32 states with
      | error e => rw [hg] at h; exact absurd h (by simp)
      | ok g =>
        rw [hg] at h
        cases states with
        | nil =>
          simp only at h
          injection h with h2
          rw [← h2]
        | cons s0 rest =>
          simp only at h
          by_cases hall : ((s0 :: rest).all fun s => is_compatible_with s s0) = true
          · rw [if_pos hall] at h
            injection h with h2
            rw [← h2]
          · rw [if_neg hall] at h
            exact absurd h (by simp)
  · rw [if_neg hlen] at h
    exact absurd h (by simp)

/-- The pressure-storing loop only fails with the construction-time
error. -/
theorem storePressures_error (f32 : ℚ → ℚ) :
    ∀ (l : List ThermodynamicState) e, storePressures f32 l = .error e →
      e = .configurationError := by
  intro l
  induction l with
  | nil => intro e h; exact absurd h (by simp [storePressures])
  | cons t ts ih =>
    intro e h
    unfold storePressures at h
    cases ht : t.pressure with
    | none =>
      rw [ht] at h
      injection h with h2
      exact h2.symm
    | some p =>
      rw [ht] at h
      cases hrec : storePressures f32 ts with
      | error e2 =>
        rw [hrec] at h
        simp only [bind_error] at h
        injection h with h2
        rw [← h2]
        exact ih e2 hrec
      | ok ps =>
        rw [hrec] at h
        exact absurd h (by simp [bind_ok])

/-- Storing the states group only fails with the construction-time error. -/
theorem store_thermodynamic_states_error (f32 : ℚ → ℚ)
    (states : List ThermodynamicState) (e : Err)
    (h : store_thermodynamic_states f32 states = .error e) :
    e = .configurationError := by
  cases states with
  | nil =>
    unfold store_thermodynamic_states at h
    injection h with h2
    exact h2.symm
  | cons s0 rest =>
    unfold store_thermodynamic_states at h
    simp only at h
    by_cases hp : s0.pressure.isSome = true
    · rw [if_pos hp] at h
      cases hps : storePressures f32 (s0 :: rest) with
      | error e2 =>
        rw [hps] at h
        simp only [bind_error] at h
        injection h with h2
        rw [← h2]
        exact storePressures_error f32 _ e2 hps
      | ok ps =>
        rw [hps] at h
        exact absurd h (by simp [bind_ok])
    · rw [if_neg hp] at h
      exact absurd h (by simp [bind_ok])

/-- C8.  Creating a fresh run validates its inputs before any iteration:
binding the checkpoint database to a state count different from the
coordinate-set count fails, binding it to states not all compatible with the
first state fails with the configuration error, and on success
`ParallelTempering.create` has written exactly one row — iteration 0 — whose
replica-to-state mapping is the identity round-robin assignment. -/
theorem create_validates_and_writes_iteration_zero :
    (∀ (f32 : ℚ → ℚ) (states : List ThermodynamicState) coordinates opts,
      states.length ≠ coordinates.length →
      NetCDFDatabase.initFresh f32 states coordinates opts =
        .error .configurationError) ∧
    (∀ (f32 : ℚ → ℚ) (s0 : ThermodynamicState) rest coordinates opts s,
      s ∈ s0 :: rest → is_compatible_with s s0 = false →
      NetCDFDatabase.initFresh f32 (s0 :: rest) coordinates opts =
        .error .configurationError) ∧
    (∀ (f32 : ℚ → ℚ) system coordinates temperatures pressure opts file,
      ParallelTempering.create f32 system coordinates temperatures pressure
          opts = .ok file →
      file.rows.map (fun r => r.replica_states) =
        [(List.range temperatures.length).map (fun i : ℕ => (i : ℤ))]) := by
  refine ⟨?_, ?_, ?_⟩
  · intro f32 states coordinates opts hne
    unfold NetCDFDatabase.initFresh
    rw [if_neg hne]
  · intro f32 s0 rest coordinates opts s hs hincompat
    by_cases hlen : (s0 :: rest).length = coordinates.length
    · cases coordinates with
      | nil => simp at hlen
      | cons c cs =>
        have hall : ((s0 :: rest).all fun t => is_compatible_with t s0) =
            false := by
          rw [List.all_eq_false]
          exact ⟨s, hs, by simp [hincompat]⟩
        unfold NetCDFDatabase.initFresh
        rw [if_pos hlen]
        simp only
        cases hg : store_thermodynamic_states f32 (s0 :: rest) with
        | error e =>
          rw [store_thermodynamic_states_error f32 _ e hg]
        | ok g =>
          simp only [hall, Bool.false_eq_true, if_false]
    · unfold NetCDFDatabase.initFresh
      rw [if_neg hlen]
  · intro f32 system coordinates temperatures pressure opts file hcreate
    unfold ParallelTempering.create at hcreate
    simp only [validate_coordinates] at hcreate
    cases hdb : NetCDFDatabase.initFresh f32 (temperatures.map (fun T =>
        ({ temperature := T, pressure := pressure, system := system } :
          ThermodynamicState))) coordinates opts with
    | error e =>
      rw [hdb, bind_error] at hcreate
      exact absurd hcreate (by simp)
    | ok db =>
      rw [hdb, bind_ok] at hcreate
      cases hinit2 : ParallelTempering.init (temperatures.map (fun T =>
          ({ temperature := T, pressure := pressure, system := system } :
            ThermodynamicState))) with
      | error e =>
        rw [hinit2, bind_error] at hcreate
        exact absurd hcreate (by simp)
      | ok u =>
        rw [hinit2, bind_ok] at hcreate
        injection hcreate with h2
        have hrows := initFresh_ok_rows f32 _ _ _ db hdb
        rw [← h2]
        unfold run_iteration_zero output_iteration
        rw [if_pos (by rw [hrows]; rfl)]
        rw [hrows]
        simp [castRecord]

/-- A state compatible with nothing but itself, for the C8 witness. -/
def smallState : ThermodynamicState :=
  { temperature := 300, pressure := none,
    system := { barostat := none, n_atoms := 3, rest := 0 } }

/-- A state with a different atom count, incompatible with `smallState`. -/
def otherAtomCountState : ThermodynamicState :=
  { temperature := 400, pressure := none,
    system := { barostat := none, n_atoms := 4, rest := 0 } }

/-- Witness for C8: one state with zero coordinate sets is rejected; two
states with different atom counts are rejected; creating one replica at one
temperature succeeds and writes exactly row 0 with the identity mapping. -/
theorem create_validates_and_writes_iteration_zero_witness :
    NetCDFDatabase.initFresh (fun q => q) [smallState] [] [] =
        .error .configurationError ∧
      NetCDFDatabase.initFresh (fun q => q) [smallState, otherAtomCountState]
          [[[1]], [[2]]] [] = .error .configurationError ∧
      ∃ file, ParallelTempering.create (fun q => q)
          { barostat := none, n_atoms := 1, rest := 0 } [[[1, 2, 3]]] [300]
          none [] = .ok file ∧
        file.rows.map (fun r => r.replica_states) = [[(0 : ℤ)]] := by
  refine ⟨create_validates_and_writes_iteration_zero.1 (fun q => q)
      [smallState] [] [] (by decide),
    create_validates_and_writes_iteration_zero.2.1 (fun q => q)
      smallState [otherAtomCountState] [[[1]], [[2]]] []
      otherAtomCountState (by simp) (by decide), ?_⟩
  refine ⟨_, rfl, ?_⟩
  exact create_validates_and_writes_iteration_zero.2.2 (fun q => q)
    { barostat := none, n_atoms := 1, rest := 0 } [[[1, 2, 3]]] [300]
    none [] _ rfl

/-! ## The temperature ladder of `ParallelTempering.create`
(parallel_tempering.py lines 121-127)

The ladder lives in floating point in the source; it is embedded over `ℝ`
with the real exponential. -/

/-- Entry `i` of the exponentially spaced ladder:
`T_min + (T_max - T_min) * (np.exp(float(i) / float(n_temps - 1)) - 1.0) /
(np.e - 1.0)`. -/
noncomputable def ptTemperature (T_min T_max : ℝ) (n_temps i : ℕ) : ℝ :=
  T_min + (T_max - T_min) *
    (Real.exp ((i : ℝ) / ((n_temps - 1 : ℕ) : ℝ)) - 1) / (Real.exp 1 - 1)

/-- The argument dispatch of `ParallelTempering.create`: an explicit
temperature list wins; otherwise all three of `T_min`, `T_max` and `n_temps`
must be present to generate the ladder; otherwise `ValueError`. -/
noncomputable def select_temperatures (temperatures : Option (List ℝ))
    (T_min T_max : Option ℝ) (n_temps : Option ℕ) : Except Err (List ℝ) :=
  match temperatures with
  | some ts => .ok ts
  | none =>
    match T_min, T_max, n_temps with
    | some a, some b, some n => .ok ((List.range n).map (ptTemperature a b n))
    | _, _, _ => .error .valueError

/-- C9.  With `T_min`, `T_max` and `n_temps ≥ 2` and no explicit list,
`create` generates `temperatures[i] = T_min + (T_max - T_min) ·
(e^{i/(n_temps-1)} - 1)/(e - 1)`; the ladder starts at `T_min`, ends at
`T_max`, and is strictly increasing whenever `T_min < T_max`; and when
neither an explicit list nor all three parameters are supplied, `create`
raises the `ValueError`. -/
theorem temperature_ladder_spec (a b : ℝ) (n : ℕ) (hn : 2 ≤ n) :
    (select_temperatures none (some a) (some b) (some n) =
      .ok ((List.range n).map (fun i : ℕ =>
        a + (b - a) * (Real.exp ((i : ℝ) / ((n - 1 : ℕ) : ℝ)) - 1) /
          (Real.exp 1 - 1)))) ∧
    ptTemperature a b n 0 = a ∧
    ptTemperature a b n (n - 1) = b ∧
    (a < b → ∀ i j : ℕ, i < j → j < n →
      ptTemperature a b n i < ptTemperature a b n j) ∧
    (∀ (ts : Option (List ℝ)) (x y : Option ℝ) (m : Option ℕ), ts = none →
      (x = none ∨ y = none ∨ m = none) →
      select_temperatures ts x y m = .error .valueError) := by
  have hexp1 : (1 : ℝ) < Real.exp 1 := Real.one_lt_exp_iff.mpr one_pos
  have hden : Real.exp 1 - 1 ≠ 0 := sub_ne_zero.mpr (ne_of_gt hexp1)
  have hn1pos : (0 : ℝ) < ((n - 1 : ℕ) : ℝ) := by
    exact_mod_cast Nat.lt_of_lt_of_le Nat.zero_lt_one (by omega : 1 ≤ n - 1)
  refine ⟨rfl, ?_, ?_, ?_, ?_⟩
  · unfold ptTemperature
    simp
  · unfold ptTemperature
    rw [div_self (ne_of_gt hn1pos), mul_div_assoc, div_self hden, mul_one]
    ring
  · intro hab i j hij hjn
    unfold ptTemperature
    apply add_lt_add_left
    rw [div_lt_div_right (by linarith : (0 : ℝ) < Real.exp 1 - 1)]
    apply mul_lt_mul_of_pos_left _ (by linarith : (0 : ℝ) < b - a)
    apply sub_lt_sub_right
    exact Real.exp_lt_exp.mpr
      ((div_lt_div_right hn1pos).mpr (by exact_mod_cast hij))
  · intro ts x y m hts hnone
    subst hts
    cases x with
    | none => rfl
    | some xv =>
      cases y with
      | none => rfl
      | some yv =>
        cases m with
        | none => rfl
        | some mv => rcases hnone with h | h | h <;> simp at h

/-- Witness for C9: the example driver's ladder between 273 K and 600 K over
10 temperatures starts at 273. -/
theorem temperature_ladder_spec_witness : ptTemperature 273 600 10 0 = 273 :=
  (temperature_ladder_spec 273 600 10 (by norm_num)).2.1

/-! ## HDF5MultiTrajectoryFile.write (hdf_io.py lines 302-480)

The trajectory file is embedded with the nodes the unit-cell claim touches:
whether the file still needs header initialization, whether its headers
declare cell arrays, and the appended `coordinates`, `cell_lengths` and
`cell_angles` series plus the frame index.  The unit conversions and
`ensure_type` dtype/shape validation of already-validated arrays are
elided. -/

/-- The embedded HDF5 trajectory file. -/
structure HFile where
  needsInit : Bool
  has_cell : Bool
  coordinates : List (List (List ℚ))
  cell_lengths : List (List ℚ)
  cell_angles : List (List ℚ)
  frame_index : ℕ
deriving DecidableEq, Repr

/-- Python `HDF5MultiTrajectoryFile.write`: reject half-specified unit cells first
(hdf_io.py lines 359-365) — before any conversion, header creation or
append; then initialize headers if needed and append, refusing ragged
arrays (a cell column missing from the file or from the call is a
`ValueError`). -/
def HDF5MultiTrajectoryFile.write (f : HFile)
    (coordinates : List (List (List ℚ)))
    (cell_lengths cell_angles : Option (List (List ℚ))) : Except Err HFile :=
  if cell_lengths.isNone && cell_angles.isSome then .error .valueError
  else if cell_lengths.isSome && cell_angles.isNone then .error .valueError
  else
    let f1 := if f.needsInit then
        { f with needsInit := false,
                 has_cell := cell_lengths.isSome || cell_angles.isSome }
      else f
    match cell_lengths, cell_angles with
    | some cl, some ca =>
      if f1.has_cell then
        .ok { f1 with coordinates := f1.coordinates ++ coordinates,
                      cell_lengths := f1.cell_lengths ++ cl,
                      cell_angles := f1.cell_angles ++ ca,
                      frame_index := f1.frame_index + coordinates.length }
      else .error .valueError
    | none, none =>
      if f1.has_cell then .error .valueError
      else
        .ok { f1 with coordinates := f1.coordinates ++ coordinates,
                      frame_index := f1.frame_index + coordinates.length }
    | _, _ => .error .valueError

/-- C10.  A write with `cell_lengths` but no `cell_angles`, or `cell_angles`
but no `cell_lengths`, fails with the `ValueError` — and, the result being
an error, no data is appended to the file. -/
theorem hdf5_write_rejects_half_specified_cell (f : HFile)
    (coordinates : List (List (List ℚ)))
    (cell_lengths cell_angles : Option (List (List ℚ)))
    (h : (cell_lengths.isSome = true ∧ cell_angles = none) ∨
      (cell_lengths = none ∧ cell_angles.isSome = true)) :
    HDF5MultiTrajectoryFile.write f coordinates cell_lengths cell_angles =
      .error .valueError := by
  unfold HDF5MultiTrajectoryFile.write
  rcases h with ⟨h1, h2⟩ | ⟨h1, h2⟩
  · subst h2
    rw [if_neg (by simp), if_pos (by simp [h1])]
  · subst h1
    rw [if_pos (by simp [h2])]

/-- Witness for C10: writing one frame with cell lengths but no cell angles
is rejected. -/
theorem hdf5_write_rejects_half_specified_cell_witness :
    HDF5MultiTrajectoryFile.write
        { needsInit := true, has_cell := false, coordinates := [],
          cell_lengths := [], cell_angles := [], frame_index := 0 }
        [[[1, 2, 3]]] (some [[4, 5, 6]]) none = .error .valueError :=
  hdf5_write_rejects_half_specified_cell _ [[[1, 2, 3]]] (some [[4, 5, 6]])
    none (Or.inl ⟨rfl, rfl⟩)

end Repex
